import Mathlib

/-!
Verification of the EvaluApp dashboard client (src/app.py) against its
natural-language specification.

The development shallowly embeds the parts of `app.py` that the claims
are about:

* a model of Python's `json.loads` (the standard-library parser used by
  `make_request`), including its whitespace handling and number/literal
  grammar, written with explicit fuel so everything is executable;
* `decode_json`, the nested decoding helper of `make_request`
  (src/app.py lines 104-121) with its dead depth guard;
* `make_request` itself (lines 89-136): status raising, content-type
  check, empty-body handling, decode recovery and the error messages
  displayed;
* the `crear_examen` submit handler (lines 192-266): local validation,
  exam creation, and the per-question creation loop;
* the student-side active-exam filter (lines 411-420);
* the in-session answer dictionary and the submission payload builder
  (lines 448-512).

Dates are modelled as integers with their usual order (the code compares
parsed dates pointwise, so only the order matters to the claims).
`st.error` / `st.success` display calls are modelled as structured error
values carrying exactly the fields the code interpolates into the
messages.
-/

set_option autoImplicit false

namespace EvaluApp

/-- A decoded JSON value, as produced by Python's `json.loads`.  Numbers
keep their source lexeme (the distinction between int and float never
matters to the program's logic that we verify). -/
inductive JVal where
  | null : JVal
  | bool : Bool → JVal
  | num : String → JVal
  | str : String → JVal
  | arr : List JVal → JVal
  | obj : List (String × JVal) → JVal
deriving Repr

/-- The four whitespace characters JSON itself allows around tokens
(Python `json.decoder` skips exactly these). -/
def jsonWs (c : Char) : Bool :=
  c = ' ' || c = '\t' || c = '\n' || c = '\r'

/-- Drop leading JSON whitespace. -/
def skipWs : List Char → List Char
  | [] => []
  | c :: cs => if jsonWs c then skipWs cs else c :: cs

/-- Drop a literal character sequence from the front, if present. -/
def dropLit : List Char → List Char → Option (List Char)
  | [], cs => some cs
  | _ :: _, [] => none
  | p :: ps, c :: cs => if c = p then dropLit ps cs else none

/-- Take a maximal run of decimal digits. -/
def takeDigits : List Char → List Char × List Char
  | [] => ([], [])
  | c :: cs =>
    if c.isDigit then
      let (d, r) := takeDigits cs
      (c :: d, r)
    else ([], c :: cs)

/-- Integer part of a JSON number: `0` or a nonzero digit followed by
digits (no leading zeros), per Python's `NUMBER_RE`. -/
def parseIntPart : List Char → Option (List Char × List Char)
  | [] => none
  | c :: cs =>
    if c = '0' then some ([c], cs)
    else if c.isDigit then
      let (d, r) := takeDigits cs
      some (c :: d, r)
    else none

/-- Optional fraction part `.digits+`; consumed only when at least one
digit follows the dot (otherwise the dot is left for the caller, as the
regex does). -/
def parseFracPart : List Char → List Char × List Char
  | '.' :: cs =>
    match takeDigits cs with
    | ([], _) => ([], '.' :: cs)
    | (d, r) => ('.' :: d, r)
  | cs => ([], cs)

/-- Optional exponent part `[eE][+-]?digits+`. -/
def parseExpPart : List Char → List Char × List Char
  | c :: cs =>
    if c = 'e' || c = 'E' then
      match cs with
      | s :: cs2 =>
        if s = '+' || s = '-' then
          match takeDigits cs2 with
          | ([], _) => ([], c :: s :: cs2)
          | (d, r) => (c :: s :: d, r)
        else
          match takeDigits cs with
          | ([], _) => ([], c :: cs)
          | (d, r) => (c :: d, r)
      | [] => ([], [c])
    else ([], c :: cs)
  | [] => ([], [])

/-- A JSON number lexeme `-?int frac? exp?`. -/
def parseNum (cs : List Char) : Option (List Char × List Char) :=
  let (sign, cs1) :=
    match cs with
    | '-' :: rest => (['-'], rest)
    | _ => (([] : List Char), cs)
  match parseIntPart cs1 with
  | none => none
  | some (ip, cs2) =>
    let (fp, cs3) := parseFracPart cs2
    let (ep, cs4) := parseExpPart cs3
    some (sign ++ ip ++ fp ++ ep, cs4)

/-- Value of a hexadecimal digit. -/
def hexVal (c : Char) : Option Nat :=
  if '0' ≤ c ∧ c ≤ '9' then some (c.toNat - '0'.toNat)
  else if 'a' ≤ c ∧ c ≤ 'f' then some (c.toNat - 'a'.toNat + 10)
  else if 'A' ≤ c ∧ c ≤ 'F' then some (c.toNat - 'A'.toNat + 10)
  else none

/-- Body of a JSON string (the opening quote already consumed): returns
the decoded characters and the input after the closing quote.  Strict
mode: raw control characters are rejected; escapes are the JSON ones.
(Surrogate-pair recombination is not modelled; no claim touches it.) -/
def parseStrAux : Nat → List Char → Option (List Char × List Char)
  | 0, _ => none
  | _ + 1, [] => none
  | fuel + 1, c :: cs =>
    if c = '"' then some ([], cs)
    else if c = '\\' then
      match cs with
      | [] => none
      | e :: cs2 =>
        let cont := fun (ch : Char) (rest : List Char) =>
          match parseStrAux fuel rest with
          | some (s, r) => some (ch :: s, r)
          | none => none
        if e = '"' then cont '"' cs2
        else if e = '\\' then cont '\\' cs2
        else if e = '/' then cont '/' cs2
        else if e = 'b' then cont (Char.ofNat 8) cs2
        else if e = 'f' then cont (Char.ofNat 12) cs2
        else if e = 'n' then cont '\n' cs2
        else if e = 'r' then cont '\r' cs2
        else if e = 't' then cont '\t' cs2
        else if e = 'u' then
          match cs2 with
          | h1 :: h2 :: h3 :: h4 :: cs3 =>
            match hexVal h1, hexVal h2, hexVal h3, hexVal h4 with
            | some a, some b, some c3, some d =>
              cont (Char.ofNat (((a * 16 + b) * 16 + c3) * 16 + d)) cs3
            | _, _, _, _ => none
          | _ => none
        else none
    else if c.toNat < 32 then none
    else
      match parseStrAux fuel cs with
      | some (s, r) => some (c :: s, r)
      | none => none

mutual

/-- Parse one JSON value (leading whitespace allowed), with fuel. -/
def parseVal : Nat → List Char → Option (JVal × List Char)
  | 0, _ => none
  | fuel + 1, cs =>
    match skipWs cs with
    | [] => none
    | c :: rest =>
      if c = '"' then
        match parseStrAux (rest.length + 1) rest with
        | some (s, r) => some (.str (String.mk s), r)
        | none => none
      else if c = '[' then parseArrBody fuel rest
      else if c = Char.ofNat 123 then parseObjBody fuel rest
      else
        match parseNum (c :: rest) with
        | some (lex, r) => some (.num (String.mk lex), r)
        | none =>
          match dropLit ['n', 'u', 'l', 'l'] (c :: rest) with
          | some r => some (.null, r)
          | none =>
            match dropLit ['t', 'r', 'u', 'e'] (c :: rest) with
            | some r => some (.bool true, r)
            | none =>
              match dropLit ['f', 'a', 'l', 's', 'e'] (c :: rest) with
              | some r => some (.bool false, r)
              | none =>
                match dropLit ['N', 'a', 'N'] (c :: rest) with
                | some r => some (.num "NaN", r)
                | none =>
                  match dropLit ['I', 'n', 'f', 'i', 'n', 'i', 't', 'y'] (c :: rest) with
                  | some r => some (.num "Infinity", r)
                  | none =>
                    match dropLit ['-', 'I', 'n', 'f', 'i', 'n', 'i', 't', 'y'] (c :: rest) with
                    | some r => some (.num "-Infinity", r)
                    | none => none

/-- Array body, after the opening bracket. -/
def parseArrBody : Nat → List Char → Option (JVal × List Char)
  | 0, _ => none
  | fuel + 1, cs =>
    match skipWs cs with
    | ']' :: rest => some (.arr [], rest)
    | cs' =>
      match parseVal fuel cs' with
      | none => none
      | some (v, r) =>
        match parseArrRest fuel r with
        | none => none
        | some (vs, r2) => some (.arr (v :: vs), r2)

/-- Remaining array elements: `, value`* then `]`. -/
def parseArrRest : Nat → List Char → Option (List JVal × List Char)
  | 0, _ => none
  | fuel + 1, cs =>
    match skipWs cs with
    | ']' :: rest => some ([], rest)
    | ',' :: rest =>
      match parseVal fuel rest with
      | none => none
      | some (v, r) =>
        match parseArrRest fuel r with
        | none => none
        | some (vs, r2) => some (v :: vs, r2)
    | _ => none

/-- Object body, after the opening brace. -/
def parseObjBody : Nat → List Char → Option (JVal × List Char)
  | 0, _ => none
  | fuel + 1, cs =>
    match skipWs cs with
    | c :: rest =>
      if c = Char.ofNat 125 then some (.obj [], rest)
      else if c = '"' then
        match parseStrAux (rest.length + 1) rest with
        | none => none
        | some (k, r) =>
          match skipWs r with
          | ':' :: r2 =>
            match parseVal fuel r2 with
            | none => none
            | some (v, r3) =>
              match parseObjRest fuel r3 with
              | none => none
              | some (kvs, r4) => some (.obj ((String.mk k, v) :: kvs), r4)
          | _ => none
      else none
    | [] => none

/-- Remaining object members: `, "key" : value`* then the closing brace. -/
def parseObjRest : Nat → List Char → Option (List (String × JVal) × List Char)
  | 0, _ => none
  | fuel + 1, cs =>
    match skipWs cs with
    | c :: rest =>
      if c = Char.ofNat 125 then some ([], rest)
      else if c = ',' then
        match skipWs rest with
        | '"' :: r =>
          match parseStrAux (r.length + 1) r with
          | none => none
          | some (k, r1) =>
            match skipWs r1 with
            | ':' :: r2 =>
              match parseVal fuel r2 with
              | none => none
              | some (v, r3) =>
                match parseObjRest fuel r3 with
                | none => none
                | some (kvs, r4) => some ((String.mk k, v) :: kvs, r4)
            | _ => none
        | _ => none
      else none
    | [] => none

end

/-- Model of Python's `json.loads`: parse one value, allow surrounding
whitespace, require the input to be exhausted.  `none` models a raised
`json.JSONDecodeError`.  The fuel `2 * length + 4` is sufficient because
every two fuel units consumed between reads advance the input by at
least one character. -/
def loads (s : String) : Option JVal :=
  match parseVal (2 * s.length + 4) s.data with
  | some (v, rest) => if skipWs rest = [] then some v else none
  | none => none

/-- Characters stripped by Python's `str.strip()` (the ASCII whitespace
set; the exotic Unicode spaces never appear in the claims). -/
def pyWs (c : Char) : Bool :=
  c = ' ' || c = '\t' || c = '\n' || c = '\r' || c = Char.ofNat 11 || c = Char.ofNat 12

/-- Model of Python's `str.strip()`. -/
def pyStrip (s : String) : String :=
  String.mk (((s.data.dropWhile pyWs).reverse.dropWhile pyWs).reverse)

/-- First character test (`str.startswith` with a single-char needle). -/
def startsWithCh (s : String) (c : Char) : Bool :=
  match s.data with
  | [] => false
  | c0 :: _ => c0 = c

/-- Last character test (`str.endswith` with a single-char needle). -/
def endsWithCh (s : String) (c : Char) : Bool :=
  match s.data.getLast? with
  | none => false
  | some c0 => c0 = c

/-- The `max_depth` constant of `make_request` (src/app.py line 105). -/
def max_depth : Nat := 100

/-- The two kinds of exception `decode_json` can raise: its own
`ValueError` for the depth guard, or a `json.JSONDecodeError` escaping
from `json.loads` (carrying the text that failed to parse). -/
inductive DecodeErr where
  | depthLimit : Nat → DecodeErr
  | jsonDecodeError : String → DecodeErr
deriving Repr, DecidableEq

/-- The inner `decode_json` helper of `make_request` (src/app.py lines
106-119), translated clause by clause: a guard on the `depth` argument
(the function is only ever called with `depth = 0` and never recurses),
then a strict parse, and on failure one retry on the stripped text when
it is bracket-delimited; otherwise the original error is re-raised. -/
def decode_json (text : String) (depth : Nat) : Except DecodeErr JVal :=
  if depth > max_depth then .error (.depthLimit max_depth)
  else
    match loads text with
    | some v => .ok v
    | none =>
      let cleaned := pyStrip text
      if startsWithCh cleaned '[' && endsWithCh cleaned ']' then
        match loads cleaned with
        | some v => .ok v
        | none => .error (.jsonDecodeError cleaned)
      else if startsWithCh cleaned (Char.ofNat 123) && endsWithCh cleaned (Char.ofNat 125) then
        match loads cleaned with
        | some v => .ok v
        | none => .error (.jsonDecodeError cleaned)
      else .error (.jsonDecodeError text)

/-- Is the first list a prefix of the second? -/
def isPfxOf : List Char → List Char → Bool
  | [], _ => true
  | _ :: _, [] => false
  | p :: ps, c :: cs => p = c && isPfxOf ps cs

/-- Does `needle` occur as a contiguous substring of the list? -/
def containsSubAux (needle : List Char) : List Char → Bool
  | [] => needle.isEmpty
  | c :: cs => isPfxOf needle (c :: cs) || containsSubAux needle cs

/-- Python's `pat in hay` on strings. -/
def strContains (hay pat : String) : Bool :=
  containsSubAux pat.data hay.data

/-- ASCII lowering of one character. -/
def charLower (c : Char) : Char :=
  if 'A' ≤ c ∧ c ≤ 'Z' then Char.ofNat (c.toNat + 32) else c

/-- Model of `str.lower()` as applied to the content-type header
(HTTP header values are ASCII; Unicode case folding never arises). -/
def pyLower (s : String) : String :=
  String.mk (s.data.map charLower)

/-- Outcome of the underlying `requests.request(...)` call: either a
raised `requests.exceptions.RequestException` (connection refused,
timeout, DNS failure, ... carrying a message) or a response with a
status code, a reason phrase, a content-type header and a body. -/
inductive HttpResult where
  | exn : String → HttpResult
  | resp (status : Nat) (reason : String) (contentType : String) (body : String) : HttpResult
deriving Repr

/-- The default backend origin (src/app.py line 34). -/
def API_BASE_URL : String := "http://localhost:5000"

/-- Modelled from the spec: `build_url`, imported from the repository's
`api_routes` module which is not among the sources, "joins a base URL
with a relative path" (spec section 4.1) — pure string composition. -/
def build_url (endpoint : String) : String := API_BASE_URL ++ endpoint

/-- Modelled from the spec: the endpoint registry's path for the exams
resource (`/examenes`, spec section 6). -/
def ENDPOINTS_examenes : String := "/examenes"

/-- Modelled from the spec: the endpoint registry's path for the
questions resource (`/preguntas`, spec section 6). -/
def ENDPOINTS_preguntas : String := "/preguntas"

/-- The message of the `requests.exceptions.HTTPError` raised by
`response.raise_for_status()` for a 4xx/5xx status (it interpolates the
status code, the reason and the URL; no response body). -/
def http_error_msg (status : Nat) (reason url : String) : String :=
  if status < 500 then
    toString status ++ " Client Error: " ++ reason ++ " for url: " ++ url
  else
    toString status ++ " Server Error: " ++ reason ++ " for url: " ++ url

/-- The error cases of `make_request` (src/app.py lines 122-136).  In
the code each case displays `st.error` diagnostics and returns `None`;
the constructors carry exactly the data interpolated into those
messages: the decode path shows the exception text, the first 500 body
characters, the content type and the URL; the content-type path shows
the content type, the first 500 body characters and the URL; the
`RequestException` path shows the exception text and the URL. -/
inductive ApiFailure where
  | decodeFailure (msg : String) (snippet : String) (contentType : String) (url : String)
  | contentTypeFailure (contentType : String) (snippet : String) (url : String)
  | connectionFailure (msg : String) (url : String)
deriving Repr, DecidableEq

/-- `str(e)` of the exceptions caught at line 122.  (For
`json.JSONDecodeError` the real message is positional, e.g. "Expecting
value: line 1 column 1"; the model keeps the offending text instead —
no claim depends on the message wording.) -/
def decodeErrMsg : DecodeErr → String
  | .depthLimit m => "Límite de recursión alcanzado (máximo " ++ toString m ++ ")"
  | .jsonDecodeError t => "JSONDecodeError: " ++ t

/-- `make_request` (src/app.py lines 89-136) for one call whose network
outcome is `net`: `raise_for_status` raises for statuses 400-599 and is
caught by the same `RequestException` handler as connection failures;
otherwise the content type must contain `application/json`
(case-insensitively); an empty body short-circuits to `[]`; a non-empty
body goes through `decode_json`.  `Except.error` models "display the
error diagnostics and return None"; the function is total, so no
failure escapes to the caller as an exception. -/
def make_request (endpoint : String) (net : HttpResult) : Except ApiFailure JVal :=
  let url := build_url endpoint
  match net with
  | .exn msg => .error (.connectionFailure msg url)
  | .resp status reason contentType body =>
    if 400 ≤ status ∧ status < 600 then
      .error (.connectionFailure (http_error_msg status reason url) url)
    else if strContains (pyLower contentType) "application/json" then
      if body = "" then .ok (.arr [])
      else
        match decode_json body 0 with
        | .ok v => .ok v
        | .error e => .error (.decodeFailure (decodeErrMsg e) (body.take 500) contentType url)
    else .error (.contentTypeFailure contentType (body.take 500) url)

/-- Python truthiness of a number from its lexeme: falsy when the
mantissa's digits are all `0` (0, -0, 0.0, 0e5, ...); `NaN` and the
infinities are truthy. -/
def numTruthy (lex : String) : Bool :=
  let mant := (lex.data.takeWhile (fun c => !(c = 'e' || c = 'E'))).filter Char.isDigit
  mant.isEmpty || mant.any (fun c => c ≠ '0')

/-- Python truthiness of a decoded JSON value (`if result:`). -/
def truthy : JVal → Bool
  | .null => false
  | .bool b => b
  | .num lex => numTruthy lex
  | .str s => !s.isEmpty
  | .arr xs => !xs.isEmpty
  | .obj kvs => !kvs.isEmpty

/-- Python `dict.get(k)` on a decoded JSON object (a decoded dict keeps
the last occurrence of a duplicated key, hence the reversed search);
`none` both for a missing key and for a non-object. -/
def jget (v : JVal) (k : String) : Option JVal :=
  match v with
  | .obj kvs => (kvs.reverse.find? (fun kv => kv.1 = k)).map Prod.snd
  | _ => none

/-- One HTTP request issued by the client, with its JSON payload. -/
structure Request where
  method : String
  endpoint : String
  data : JVal
deriving Repr

/-- A question as assembled by the creation form.  The option texts the
form collects are not part of the model because they are not sent: line
230 (`"opciones": ...`) is commented out in the payload. -/
structure PreguntaForm where
  textoPregunta : String
  tipoPregunta : String
  puntos : Int
deriving Repr

/-- `date.isoformat()`; dates are modelled as integer ordinals, so only
order and equality are meaningful. -/
def isoformat (d : Int) : String := toString d

/-- `ExamenRequestDTO.to_dict()` (src/app.py lines 20-28). -/
def examPayload (titulo descripcion : String) (fechaInicio fechaFin : Int)
    (creadorId : Int) (preguntasIds : List Int) : JVal :=
  .obj [("titulo", .str titulo), ("descripcion", .str descripcion),
        ("fechaInicio", .str (isoformat fechaInicio)),
        ("fechaFin", .str (isoformat fechaFin)),
        ("creadorId", .num (toString creadorId)),
        ("preguntasIds", .arr (preguntasIds.map (fun i => .num (toString i))))]

/-- The question-creation payload (src/app.py lines 226-232); the exam
identifier is whatever `result.get("id")` produced (`None` → JSON null). -/
def preguntaPayload (texto tipo : String) (examenId : Option JVal) (puntos : Int) : JVal :=
  .obj [("textoPregunta", .str texto), ("tipoPregunta", .str tipo),
        ("examenId", examenId.getD .null),
        ("puntos", .num (toString puntos))]

/-- The exam-creation request the submit handler issues first (lines
203-217): the DTO payload with `creadorId = 1` and an empty
`preguntasIds` list. -/
def examCreateReq (titulo descripcion : String) (fecha_inicio fecha_fin : Int) : Request :=
  ⟨"POST", ENDPOINTS_examenes, examPayload titulo descripcion fecha_inicio fecha_fin 1 []⟩

/-- The question-creation request for one form question (lines 226-240). -/
def preguntaReq (examenId : Option JVal) (p : PreguntaForm) : Request :=
  ⟨"POST", ENDPOINTS_preguntas, preguntaPayload p.textoPregunta p.tipoPregunta examenId p.puntos⟩

/-- Did a `make_request` result pass the `if result:` test?  (`None`
and falsy decoded values both count as failure, lines 242-245.) -/
def attemptOk (r : Except ApiFailure JVal) : Bool :=
  match r with
  | .ok v => truthy v
  | .error _ => false

/-- Reported outcome of the `crear_examen` submit handler.
`unexpectedError` is the outer `except Exception` path (lines 254-266),
reached e.g. when a truthy non-dict response makes `result.get("id")`
raise `AttributeError`. -/
inductive CrearOutcome where
  | validationError (msg : String)
  | examFailed
  | unexpectedError
  | created (examenId : Option JVal) (questionResults : List Bool)
deriving Repr

/-- What the `crear_examen` submit handler did: the requests that
reached the network, in order, and the reported outcome. -/
structure CrearResult where
  requests : List Request
  outcome : CrearOutcome
deriving Repr

/-- The submit handler of `crear_examen` (src/app.py lines 192-266).
`net i req` is the backend's answer to the `i`-th `make_request` call
of this interaction (call 0 creates the exam, call `1 + i` creates
question `i`).  Validation failures return before anything touches the
network; a falsy exam-creation result (error, `[]`, ...) aborts before
any question is attempted; otherwise every pending question is posted
in input order, each outcome recorded individually by the
success/error branch at lines 242-245. -/
def crear_examen (net : Nat → Request → Except ApiFailure JVal)
    (titulo descripcion : String) (fecha_inicio fecha_fin : Int)
    (preguntas : List PreguntaForm) : CrearResult :=
  if titulo = "" then ⟨[], .validationError "El título es obligatorio"⟩
  else if fecha_inicio ≥ fecha_fin then
    ⟨[], .validationError "La fecha de inicio debe ser anterior a la de fin"⟩
  else
    let req0 : Request := examCreateReq titulo descripcion fecha_inicio fecha_fin
    match net 0 req0 with
    | .error _ => ⟨[req0], .examFailed⟩
    | .ok v =>
      if truthy v then
        match v with
        | .obj kvs =>
          let examenId := jget (.obj kvs) "id"
          ⟨req0 :: preguntas.map (preguntaReq examenId),
           .created examenId (preguntas.enum.map (fun ip =>
             attemptOk (net (1 + ip.1) (preguntaReq examenId ip.2))))⟩
        | _ => ⟨[req0], .unexpectedError⟩
      else ⟨[req0], .examFailed⟩

/-- An exam record as it appears in the student view's dataframe.
`fechaInicio`/`fechaFin` are the parsed `pd.to_datetime(...).dt.date`
values (integer ordinals); `preguntasIds` keeps its raw JSON shape
because the filter checks `isinstance(x, list)` on it. -/
structure Examen where
  id : Int
  titulo : String
  fechaInicio : Int
  fechaFin : Int
  preguntasIds : JVal

/-- The lambda at line 419: `isinstance(x, list) and len(x) > 0`. -/
def esListaNoVacia : JVal → Bool
  | .arr xs => !xs.isEmpty
  | _ => false

/-- The active-exam filter of the student view (src/app.py lines
411-420): first the date window (both comparisons non-strict), then the
question-list check. -/
def examenes_activos (examenes : List Examen) (hoy : Int) : List Examen :=
  (examenes.filter (fun e => decide (e.fechaInicio ≤ hoy) && decide (hoy ≤ e.fechaFin))).filter
    (fun e => esListaNoVacia e.preguntasIds)

/-- An in-session answer: the values stored in
`st.session_state.respuestas` (lines 470-473 and 484-487). -/
inductive Respuesta where
  | seleccionUnica (respuesta : String)
  | textoAbierto (respuesta : String)
deriving Repr, DecidableEq

/-- Python dict assignment `d[k] = v`: replace in place when the key is
present (insertion order preserved), append otherwise. -/
def dictSet (m : List (Int × Respuesta)) (k : Int) (v : Respuesta) : List (Int × Respuesta) :=
  match m with
  | [] => [(k, v)]
  | (k', v') :: rest => if k' = k then (k, v) :: rest else (k', v') :: dictSet rest k v

/-- Python dict lookup `d[k]` / `d.get(k)`. -/
def dictGet (m : List (Int × Respuesta)) (k : Int) : Option Respuesta :=
  match m with
  | [] => none
  | (k', v') :: rest => if k' = k then some v' else dictGet rest k

/-- The dict invariant: at most one entry per question identifier. -/
def uniqKeys (m : List (Int × Respuesta)) : Prop := (m.map Prod.fst).Nodup

/-- An option dict of a question, as read by the radio widget (line 463
uses `opt['textoPregunta']`). -/
structure OpcionDict where
  id : Int
  textoPregunta : String
deriving Repr, DecidableEq

/-- A question dict as returned by `GET /examenes/{id}/preguntas` and
consumed by the exam-taking view.  Keys the code reads: `'id'`,
`'textoPregunta'`, `'tipo'` (via `.get`), `'opciones'` (via `.get`) —
and, in the submission loop at line 504, `'texto'`, a key nothing else
in the repository reads or writes, so it is modelled as optional. -/
structure PreguntaDict where
  id : Int
  textoPregunta : String
  tipo : Option String
  opciones : List OpcionDict
  texto : Option String
deriving Repr, DecidableEq

/-- Exceptions the submission loop can raise; all are caught by the
blanket `except Exception` at line 528, which displays a generic
message and sends nothing. -/
inductive PyExc where
  | keyError (key : String)
  | stopIteration
deriving Repr, DecidableEq

/-- Lines 502-505: `next(int(opt['id']) for opt in preguntas if
opt['texto'] == respuesta['respuesta'])`.  Faithfully to the code, the
generator ranges over the QUESTION dicts `preguntas`, not over the
selected question's options, and filters on the `'texto'` key: a
question dict without that key raises `KeyError`, an exhausted
generator raises `StopIteration`. -/
def resolve_opcion (preguntas : List PreguntaDict) (label : String) : Except PyExc Int :=
  match preguntas with
  | [] => .error .stopIteration
  | q :: rest =>
    match q.texto with
    | none => .error (.keyError "texto")
    | some t => if t = label then .ok q.id else resolve_opcion rest label

/-- The submission payload assembled by the submit loop (lines
493-512).  `respuestasTexto` is a single optional `{preguntaId,
respuesta}` record because line 509 (re)assigns the key instead of
appending to a list. -/
structure SubmitPayload where
  examenId : Int
  opcionesSeleccionadas : List Int
  respuestasTexto : Option (Int × String)
deriving Repr, DecidableEq

/-- The `for pregunta_id, respuesta in st.session_state.respuestas.items()`
loop (lines 499-512), one answer at a time: single-choice answers append
the resolved identifier to `opcionesSeleccionadas`; open-text answers
overwrite `respuestasTexto`. -/
def build_payload_go (preguntas : List PreguntaDict) (acc : SubmitPayload) :
    List (Int × Respuesta) → Except PyExc SubmitPayload
  | [] => .ok acc
  | (pid, r) :: rest =>
    match r with
    | .seleccionUnica label =>
      match resolve_opcion preguntas label with
      | .error e => .error e
      | .ok oid =>
        build_payload_go preguntas
          ⟨acc.examenId, acc.opcionesSeleccionadas ++ [oid], acc.respuestasTexto⟩ rest
    | .textoAbierto txt =>
      build_payload_go preguntas ⟨acc.examenId, acc.opcionesSeleccionadas, some (pid, txt)⟩ rest

/-- The whole payload construction of the submit handler, starting from
`{"examenId": ..., "opcionesSeleccionadas": []}` (lines 493-496). -/
def build_payload (examen_id : Int) (preguntas : List PreguntaDict)
    (respuestas : List (Int × Respuesta)) : Except PyExc SubmitPayload :=
  build_payload_go preguntas ⟨examen_id, [], none⟩ respuestas

/-- The open-text component of one recorded answer, if any. -/
def openTextEntry : Int × Respuesta → Option (Int × String)
  | (pid, .textoAbierto txt) => some (pid, txt)
  | (_, .seleccionUnica _) => none

mutual

/-- Nesting depth of a decoded JSON value (0 for scalars, 1 + the
maximum depth of the elements for containers). -/
def jdepth : JVal → Nat
  | .null => 0
  | .bool _ => 0
  | .num _ => 0
  | .str _ => 0
  | .arr xs => 1 + jdepthList xs
  | .obj kvs => 1 + jdepthKVList kvs

/-- Maximum depth over a list of values. -/
def jdepthList : List JVal → Nat
  | [] => 0
  | v :: vs => max (jdepth v) (jdepthList vs)

/-- Maximum depth over object members. -/
def jdepthKVList : List (String × JVal) → Nat
  | [] => 0
  | kv :: vs => max (jdepth kv.2) (jdepthKVList vs)

end

/-- The body-snippet fields carried by a displayed failure: the decode
and content-type paths show `response.text[:500]`, the
`RequestException` path shows none. -/
def failureSnippets : ApiFailure → List String
  | .decodeFailure _ snippet _ _ => [snippet]
  | .contentTypeFailure _ snippet _ => [snippet]
  | .connectionFailure _ _ => []

/-- A backend for exercising the orchestrator: the exam creation and
questions 1 and 3 succeed, question 2 fails with a connection error. -/
def c4net : Nat → Request → Except ApiFailure JVal := fun i _ =>
  if i = 2 then .error (.connectionFailure "conn" "u") else .ok (.obj [("id", .num "7")])

/-- Three pending questions for exercising the orchestrator. -/
def c4qs : List PreguntaForm :=
  [⟨"q1", "SELECCION_UNICA", 1⟩, ⟨"q2", "TEXTO_ABIERTO", 1⟩, ⟨"q3", "SELECCION_UNICA", 1⟩]

/-- The body `[[[...1...]]]` with `n` nested brackets. -/
def nestedArr : Nat → String
  | 0 => "1"
  | n + 1 => "[" ++ nestedArr n ++ "]"

/-- The value `nestedArr n` decodes to. -/
def nestedVal : Nat → JVal
  | 0 => .num "1"
  | n + 1 => .arr [nestedVal n]

/-! ## Helper lemmas -/

set_option maxRecDepth 8000

/-- Characterisation of the question-list check of the active filter. -/
theorem esListaNoVacia_iff (v : JVal) :
    esListaNoVacia v = true ↔ ∃ xs, v = JVal.arr xs ∧ xs ≠ [] := by
  cases v <;> simp [esListaNoVacia]

/-- Two successive dict assignments to the same key coincide with the
second alone. -/
theorem dictSet_dictSet (m : List (Int × Respuesta)) (k : Int) (a b : Respuesta) :
    dictSet (dictSet m k a) k b = dictSet m k b := by
  induction m with
  | nil => simp [dictSet]
  | cons kv rest ih =>
    obtain ⟨k', v'⟩ := kv
    by_cases h : k' = k
    · simp [dictSet, h]
    · simp [dictSet, h, ih]

/-- Looking up the key just assigned yields the assigned value. -/
theorem dictGet_dictSet (m : List (Int × Respuesta)) (k : Int) (v : Respuesta) :
    dictGet (dictSet m k v) k = some v := by
  induction m with
  | nil => simp [dictSet, dictGet]
  | cons kv rest ih =>
    obtain ⟨k', v'⟩ := kv
    by_cases h : k' = k
    · simp [dictSet, dictGet, h]
    · simp [dictSet, dictGet, h, ih]

/-- Assignment leaves the key list unchanged when the key is present
and appends it once otherwise. -/
theorem dictSet_keys (m : List (Int × Respuesta)) (k : Int) (v : Respuesta) :
    (dictSet m k v).map Prod.fst =
      if k ∈ m.map Prod.fst then m.map Prod.fst else m.map Prod.fst ++ [k] := by
  induction m with
  | nil => simp [dictSet]
  | cons kv rest ih =>
    obtain ⟨k', v'⟩ := kv
    by_cases h : k' = k
    · simp [dictSet, h]
    · have hne : k ≠ k' := fun hh => h hh.symm
      by_cases hk : k ∈ rest.map Prod.fst
      · simp [dictSet, h, ih, hk, List.mem_cons, hne]
      · simp [dictSet, h, ih, hk, List.mem_cons, hne]

/-- Dict assignment preserves key uniqueness. -/
theorem uniqKeys_dictSet (m : List (Int × Respuesta)) (k : Int) (v : Respuesta)
    (h : uniqKeys m) : uniqKeys (dictSet m k v) := by
  unfold uniqKeys at *
  rw [dictSet_keys]
  by_cases hk : k ∈ m.map Prod.fst
  · simpa [hk] using h
  · simp [hk, List.nodup_append, h]

/-- `respuestasTexto` of a completed payload loop is the last open-text
entry processed, or the accumulator's value when there is none. -/
theorem build_payload_go_texto (preguntas : List PreguntaDict) :
    ∀ (rs : List (Int × Respuesta)) (acc p : SubmitPayload),
      build_payload_go preguntas acc rs = .ok p →
      p.respuestasTexto = ((rs.filterMap openTextEntry).map some).getLastD acc.respuestasTexto := by
  intro rs
  induction rs with
  | nil =>
    intro acc p h
    simp [build_payload_go] at h
    subst h
    simp
  | cons hd tl ih =>
    obtain ⟨pid, r⟩ := hd
    intro acc p h
    cases r with
    | seleccionUnica label =>
      simp only [build_payload_go] at h
      cases hres : resolve_opcion preguntas label with
      | error e => simp only [hres] at h; cases h
      | ok oid =>
        simp only [hres] at h
        have hfm : ((pid, Respuesta.seleccionUnica label) :: tl).filterMap openTextEntry
            = tl.filterMap openTextEntry := by
          simp [openTextEntry]
        rw [hfm]
        exact ih ⟨acc.examenId, acc.opcionesSeleccionadas ++ [oid], acc.respuestasTexto⟩ p h
    | textoAbierto txt =>
      simp only [build_payload_go] at h
      have hfm : ((pid, Respuesta.textoAbierto txt) :: tl).filterMap openTextEntry
          = (pid, txt) :: tl.filterMap openTextEntry := by
        simp [openTextEntry]
      rw [hfm, List.map_cons, List.getLastD_cons]
      exact ih _ p h

/-- `getLastD` over a list of `some`s with default `none` is `getLast?`. -/
theorem map_some_getLastD {α : Type} (l : List α) :
    (l.map some).getLastD none = l.getLast? := by
  induction l with
  | nil => rfl
  | cons a l ih =>
    cases l with
    | nil => rfl
    | cons b l => simpa [List.getLastD_cons, List.getLast?] using ih

/-! ## Claims -/

/-- C1 (code bug): `build_submission` is claimed to resolve a chosen
single-choice label to the identifier of the matching option among that
question's options, and to fail with an `UnresolvedOption` error naming
the question and label otherwise.  The code instead scans the QUESTION
dicts (`for opt in preguntas`) for key `'texto'` — a key nothing writes.
At the spec's own example (Q1 with options A and B, answer "B") the loop
raises `KeyError 'texto'`; with a `'texto'` key present on the question
it raises `StopIteration` unless some QUESTION's text equals the label,
in which case it submits the QUESTION's id (here 1, not option id 11).
All failures are swallowed by the blanket handler, so no error naming
the question and label is produced and nothing is submitted. -/
theorem claim_C1_resolution_bug :
    build_payload 5
        [⟨1, "Capital de Francia", some "SELECCION_UNICA", [⟨10, "A"⟩, ⟨11, "B"⟩], none⟩]
        [(1, .seleccionUnica "B")]
      = .error (.keyError "texto")
    ∧ build_payload 5
        [⟨1, "Capital de Francia", some "SELECCION_UNICA", [⟨10, "A"⟩, ⟨11, "B"⟩],
          some "Capital de Francia"⟩]
        [(1, .seleccionUnica "B")]
      = .error .stopIteration
    ∧ build_payload 5
        [⟨1, "B", some "SELECCION_UNICA", [⟨10, "A"⟩, ⟨11, "B"⟩], some "B"⟩]
        [(1, .seleccionUnica "B")]
      = .ok ⟨5, [1], none⟩ :=
  ⟨rfl, rfl, rfl⟩

/-- C2 counterexample: a body of JSON nesting depth 101 (> 100) is
decoded successfully by `decode_json` instead of being rejected — the
depth guard compares the `depth` argument, which is always 0. -/
theorem claim_C2_counterexample :
    100 < jdepth (nestedVal 101)
    ∧ decode_json (nestedArr 101) 0 = .ok (nestedVal 101)
    ∧ make_request ENDPOINTS_examenes (.resp 200 "OK" "application/json" (nestedArr 101))
        = .ok (nestedVal 101) := by
  refine ⟨?_, rfl, rfl⟩
  have h : ∀ n, jdepth (nestedVal n) = n := by
    intro n
    induction n with
    | zero => rfl
    | succ n ih =>
      simp [nestedVal, jdepth, jdepthList, ih]
      omega
  rw [h 101]
  omega

/-- C2 (amended): the `depth > 100` guard in `decode_json` can only
fire when the function is entered with `depth > 100`; it is invoked
exactly once, with `depth = 0`, and never recurses, so for every
response body the depth-limit error is never returned and nesting depth
is not bounded. -/
theorem claim_C2_amended (text : String) (d m : Nat) (h : d ≤ max_depth) :
    decode_json text d ≠ .error (.depthLimit m) := by
  intro hcontra
  have h0 : ¬ d > max_depth := by omega
  simp only [decode_json] at hcontra
  rw [if_neg h0] at hcontra
  cases hl : loads text with
  | some w => rw [hl] at hcontra; cases hcontra
  | none =>
    rw [hl] at hcontra
    by_cases hA : (startsWithCh (pyStrip text) '[' && endsWithCh (pyStrip text) ']') = true
    · rw [if_pos hA] at hcontra
      cases hc : loads (pyStrip text) with
      | some w => rw [hc] at hcontra; cases hcontra
      | none => rw [hc] at hcontra; simp at hcontra
    · rw [if_neg hA] at hcontra
      by_cases hB : (startsWithCh (pyStrip text) (Char.ofNat 123)
          && endsWithCh (pyStrip text) (Char.ofNat 125)) = true
      · rw [if_pos hB] at hcontra
        cases hc : loads (pyStrip text) with
        | some w => rw [hc] at hcontra; cases hcontra
        | none => rw [hc] at hcontra; simp at hcontra
      · rw [if_neg hB] at hcontra
        simp at hcontra

/-- C2 witness: at the only call site (`depth = 0`) the depth-limit
error is not produced. -/
theorem claim_C2_witness :
    decode_json "not json" 0 ≠ .error (.depthLimit 100) :=
  claim_C2_amended "not json" 0 100 (by decide)

/-- C3: an exam is offered to the student iff it is among the fetched
exams, today lies in `[fechaInicio, fechaFin]` (both bounds inclusive),
and its `preguntasIds` is a non-empty list. -/
theorem claim_C3_active_window (examenes : List Examen) (hoy : Int) (e : Examen) :
    e ∈ examenes_activos examenes hoy ↔
      e ∈ examenes ∧ (e.fechaInicio ≤ hoy ∧ hoy ≤ e.fechaFin) ∧
        ∃ xs, e.preguntasIds = JVal.arr xs ∧ xs ≠ [] := by
  unfold examenes_activos
  rw [List.mem_filter, List.mem_filter, esListaNoVacia_iff]
  simp [and_assoc]

/-- C4: with valid form inputs, a failed exam-creation request (error
or falsy body) means exactly one request was issued and no question was
attempted; a successful one means every pending question is posted in
input order, tagged with the new exam's id, with each question's
outcome reported individually as the success of its own request —
independent of the other questions' outcomes — and nothing rolled
back. -/
theorem claim_C4_partial_failure (net : Nat → Request → Except ApiFailure JVal)
    (titulo descripcion : String) (fecha_inicio fecha_fin : Int)
    (preguntas : List PreguntaForm)
    (h1 : titulo ≠ "") (h2 : fecha_inicio < fecha_fin) :
    (attemptOk (net 0 (examCreateReq titulo descripcion fecha_inicio fecha_fin)) = false →
        crear_examen net titulo descripcion fecha_inicio fecha_fin preguntas
          = ⟨[examCreateReq titulo descripcion fecha_inicio fecha_fin], .examFailed⟩)
    ∧ ∀ kvs, net 0 (examCreateReq titulo descripcion fecha_inicio fecha_fin) = .ok (.obj kvs) →
        truthy (.obj kvs) = true →
        crear_examen net titulo descripcion fecha_inicio fecha_fin preguntas
          = ⟨examCreateReq titulo descripcion fecha_inicio fecha_fin
               :: preguntas.map (preguntaReq (jget (.obj kvs) "id")),
             .created (jget (.obj kvs) "id")
               (preguntas.enum.map (fun ip =>
                 attemptOk (net (1 + ip.1) (preguntaReq (jget (.obj kvs) "id") ip.2))))⟩ := by
  have hvalid : ¬ fecha_inicio ≥ fecha_fin := by omega
  constructor
  · intro hfail
    simp only [crear_examen, if_neg h1, if_neg hvalid]
    cases hnet : net 0 (examCreateReq titulo descripcion fecha_inicio fecha_fin) with
    | error e => rfl
    | ok v =>
      rw [hnet] at hfail
      simp only [attemptOk] at hfail
      simp [hfail]
  · intro kvs hnet htruthy
    simp only [crear_examen, if_neg h1, if_neg hvalid]
    rw [hnet]
    simp [htruthy]

/-- C4 witness: three questions where the backend rejects the second:
the exam plus all three question requests are issued and the outcomes
are reported as success, failure, success. -/
theorem claim_C4_witness :
    crear_examen c4net "t" "d" 1 5 c4qs
      = ⟨examCreateReq "t" "d" 1 5
           :: c4qs.map (preguntaReq (jget (.obj [("id", JVal.num "7")]) "id")),
         .created (jget (.obj [("id", JVal.num "7")]) "id")
           (c4qs.enum.map (fun ip =>
             attemptOk (c4net (1 + ip.1)
               (preguntaReq (jget (.obj [("id", JVal.num "7")]) "id") ip.2))))⟩ :=
  (claim_C4_partial_failure c4net "t" "d" 1 5 c4qs (by decide) (by decide)).2
    [("id", JVal.num "7")] rfl rfl

/-- C5: an empty title or an inverted/equal date range is rejected
locally with the corresponding validation error and an empty request
log; with a non-empty title and `start < end` the creation request is
the first thing to reach the network and no validation error is
reported. -/
theorem claim_C5_local_validation (net : Nat → Request → Except ApiFailure JVal)
    (titulo descripcion : String) (fecha_inicio fecha_fin : Int)
    (preguntas : List PreguntaForm) :
    (titulo = "" →
        crear_examen net titulo descripcion fecha_inicio fecha_fin preguntas
          = ⟨[], .validationError "El título es obligatorio"⟩)
    ∧ (titulo ≠ "" → fecha_inicio ≥ fecha_fin →
        crear_examen net titulo descripcion fecha_inicio fecha_fin preguntas
          = ⟨[], .validationError "La fecha de inicio debe ser anterior a la de fin"⟩)
    ∧ (titulo ≠ "" → fecha_inicio < fecha_fin →
        (crear_examen net titulo descripcion fecha_inicio fecha_fin preguntas).requests.head?
            = some (examCreateReq titulo descripcion fecha_inicio fecha_fin)
          ∧ ∀ msg, (crear_examen net titulo descripcion fecha_inicio fecha_fin preguntas).outcome
              ≠ .validationError msg) := by
  refine ⟨fun h1 => by simp [crear_examen, h1], fun h1 h2 => by simp [crear_examen, h1, h2], ?_⟩
  intro h1 h2
  have hvalid : ¬ fecha_inicio ≥ fecha_fin := by omega
  simp only [crear_examen, if_neg h1, if_neg hvalid]
  cases hnet : net 0 (examCreateReq titulo descripcion fecha_inicio fecha_fin) with
  | error e => simp
  | ok v =>
    by_cases ht : truthy v
    · cases v <;> simp [ht]
    · simp [ht]

/-- C6 counterexample: a 404 with body `"cuerpo404"` is reported
through the connection-error handler — the displayed failure carries
the `HTTPError` message and the URL but no snippet of the response
body, contrary to the claimed `Http(status, url, body_snippet)` shape. -/
theorem claim_C6_counterexample :
    make_request ENDPOINTS_examenes (.resp 404 "Not Found" "application/json" "cuerpo404")
        = .error (.connectionFailure
            "404 Client Error: Not Found for url: http://localhost:5000/examenes"
            "http://localhost:5000/examenes")
    ∧ failureSnippets (.connectionFailure
            "404 Client Error: Not Found for url: http://localhost:5000/examenes"
            "http://localhost:5000/examenes") = [] :=
  ⟨rfl, rfl⟩

/-- C6 (amended): a network-level failure yields a connection-error
result carrying the exception message and the failing URL; a 4xx/5xx
status is raised by `raise_for_status` and caught by the same handler,
yielding a connection-error result whose message is the `HTTPError`
text (status, reason and URL — no body snippet).  `make_request` is a
total function, so neither failure escapes to the caller. -/
theorem claim_C6_amended (endpoint msg reason contentType body : String) (status : Nat)
    (h : 400 ≤ status ∧ status < 600) :
    make_request endpoint (.exn msg)
        = .error (.connectionFailure msg (build_url endpoint))
    ∧ make_request endpoint (.resp status reason contentType body)
        = .error (.connectionFailure (http_error_msg status reason (build_url endpoint))
            (build_url endpoint)) := by
  refine ⟨rfl, ?_⟩
  simp only [make_request]
  rw [if_pos h]

/-- C6 witness: a refused connection and a 500 response both come back
as connection-error results. -/
theorem claim_C6_witness :
    make_request ENDPOINTS_examenes (.exn "refused")
        = .error (.connectionFailure "refused" (build_url ENDPOINTS_examenes))
    ∧ make_request ENDPOINTS_examenes (.resp 500 "Internal Server Error" "text/html" "boom")
        = .error (.connectionFailure
            (http_error_msg 500 "Internal Server Error" (build_url ENDPOINTS_examenes))
            (build_url ENDPOINTS_examenes)) :=
  claim_C6_amended ENDPOINTS_examenes "refused" "Internal Server Error" "text/html" "boom" 500
    (by decide)

/-- C7: a successful (2xx) JSON response with an empty body decodes to
the empty sequence `[]`, not to an error. -/
theorem claim_C7_empty_body (endpoint reason contentType : String) (status : Nat)
    (h2xx : 200 ≤ status ∧ status < 300)
    (hjson : strContains (pyLower contentType) "application/json" = true) :
    make_request endpoint (.resp status reason contentType "") = .ok (.arr []) := by
  have hne : ¬ (400 ≤ status ∧ status < 600) := by omega
  simp [make_request, hne, hjson]

/-- C7 witness: a 200 `application/json` response with empty body
yields `[]`. -/
theorem claim_C7_witness :
    make_request ENDPOINTS_examenes (.resp 200 "OK" "application/json" "")
      = .ok (.arr []) :=
  claim_C7_empty_body ENDPOINTS_examenes "OK" "application/json" 200 (by decide) (by decide)

/-- C8: strict decoding first; on failure exactly one recovery — strip,
and when the stripped text is bracket-delimited retry strict decoding
on it, its result (ok or error) final; when it is not
bracket-delimited, a decode error with the original text.  Any success
comes either from the strict parse or from that single retry.  In
particular `"  [1,2,3]  "` decodes to `[1,2,3]` and `"not json"` yields
a decode error. -/
theorem claim_C8_decode_pipeline (text : String) :
    decode_json "  [1,2,3]  " 0 = .ok (.arr [.num "1", .num "2", .num "3"])
    ∧ decode_json "not json" 0 = .error (.jsonDecodeError "not json")
    ∧ (loads text = none →
        (startsWithCh (pyStrip text) '[' && endsWithCh (pyStrip text) ']'
            || startsWithCh (pyStrip text) (Char.ofNat 123)
               && endsWithCh (pyStrip text) (Char.ofNat 125)) = true →
          decode_json text 0
            = match loads (pyStrip text) with
              | some v => .ok v
              | none => .error (.jsonDecodeError (pyStrip text)))
    ∧ (loads text = none →
        (startsWithCh (pyStrip text) '[' && endsWithCh (pyStrip text) ']'
            || startsWithCh (pyStrip text) (Char.ofNat 123)
               && endsWithCh (pyStrip text) (Char.ofNat 125)) = false →
          decode_json text 0 = .error (.jsonDecodeError text))
    ∧ (∀ v, decode_json text 0 = .ok v →
        loads text = some v ∨ loads (pyStrip text) = some v) := by
  have h0 : ¬ (0 : Nat) > max_depth := by decide
  refine ⟨rfl, rfl, ?_, ?_, ?_⟩
  · intro hl hb
    simp only [decode_json]
    rw [if_neg h0, hl]
    cases hA : (startsWithCh (pyStrip text) '[' && endsWithCh (pyStrip text) ']') with
    | true => simp [hA]
    | false =>
      have hB : (startsWithCh (pyStrip text) (Char.ofNat 123)
          && endsWithCh (pyStrip text) (Char.ofNat 125)) = true := by
        simpa [hA] using hb
      simp [hA, hB]
  · intro hl hb
    obtain ⟨hA, hB⟩ := Bool.or_eq_false_iff.mp hb
    simp only [decode_json]
    rw [if_neg h0, hl]
    simp [hA, hB]
  · intro v hv
    simp only [decode_json] at hv
    rw [if_neg h0] at hv
    cases hl : loads text with
    | some w =>
      rw [hl] at hv
      injection hv with h
      exact Or.inl (congrArg some h)
    | none =>
      rw [hl] at hv
      refine Or.inr ?_
      by_cases hA : (startsWithCh (pyStrip text) '[' && endsWithCh (pyStrip text) ']') = true
      · rw [if_pos hA] at hv
        cases hc : loads (pyStrip text) with
        | some w => rw [hc] at hv; injection hv with h; exact congrArg some h
        | none => rw [hc] at hv; cases hv
      · rw [if_neg hA] at hv
        by_cases hB : (startsWithCh (pyStrip text) (Char.ofNat 123)
            && endsWithCh (pyStrip text) (Char.ofNat 125)) = true
        · rw [if_pos hB] at hv
          cases hc : loads (pyStrip text) with
          | some w => rw [hc] at hv; injection hv with h; exact congrArg some h
          | none => rw [hc] at hv; cases hv
        · rw [if_neg hB] at hv; cases hv

/-- C9: assigning an answer for a question already answered replaces
the prior entry — two successive recordings for the same key equal the
later one alone, the lookup sees the later answer, key uniqueness is
preserved (at most one answer per question), and the built submission
payload after both recordings equals the one after only the later
recording (overwrite, not accumulation). -/
theorem claim_C9_overwrite (m : List (Int × Respuesta)) (k : Int) (a b : Respuesta) :
    dictSet (dictSet m k a) k b = dictSet m k b
    ∧ dictGet (dictSet (dictSet m k a) k b) k = some b
    ∧ (uniqKeys m → uniqKeys (dictSet (dictSet m k a) k b))
    ∧ ∀ (examen_id : Int) (preguntas : List PreguntaDict),
        build_payload examen_id preguntas (dictSet (dictSet m k a) k b)
          = build_payload examen_id preguntas (dictSet m k b) := by
  refine ⟨dictSet_dictSet m k a b, ?_, ?_, ?_⟩
  · rw [dictSet_dictSet]
    exact dictGet_dictSet m k b
  · intro h
    rw [dictSet_dictSet]
    exact uniqKeys_dictSet m k b h
  · intro examen_id preguntas
    rw [dictSet_dictSet]

/-- C10: whenever the payload loop completes, `respuestasTexto` holds
exactly the last open-text answer processed (in dict order) — every
earlier open-text answer is absent — and it is absent entirely when no
open-text answer was recorded. -/
theorem claim_C10_last_open_text (examen_id : Int) (preguntas : List PreguntaDict)
    (respuestas : List (Int × Respuesta)) (p : SubmitPayload)
    (h : build_payload examen_id preguntas respuestas = .ok p) :
    p.respuestasTexto = (respuestas.filterMap openTextEntry).getLast?
    ∧ ((∀ e ∈ respuestas, openTextEntry e = none) → p.respuestasTexto = none) := by
  have h1 := build_payload_go_texto preguntas respuestas _ p h
  have h2 : p.respuestasTexto = (respuestas.filterMap openTextEntry).getLast? := by
    rw [h1]
    exact map_some_getLastD _
  refine ⟨h2, fun hall => ?_⟩
  rw [h2, List.filterMap_eq_nil_iff.mpr hall]
  rfl

/-- C10 witness: two open-text answers for distinct questions — the
payload keeps only the one processed last. -/
theorem claim_C10_witness :
    (⟨3, [], some (2, "world")⟩ : SubmitPayload).respuestasTexto =
      ([((1 : Int), Respuesta.textoAbierto "hello"),
        (2, Respuesta.textoAbierto "world")].filterMap openTextEntry).getLast? :=
  (claim_C10_last_open_text 3 [] [(1, .textoAbierto "hello"), (2, .textoAbierto "world")]
    ⟨3, [], some (2, "world")⟩ rfl).1

end EvaluApp
